import Mathlib

/-
Verification of the CropSense sensor simulator
(server-src/sensor_simulator.py).

Shallow embedding conventions:
  * Python floats are modelled as exact rationals (ℚ).
  * math.sin is an opaque parameter `msin : ℚ → ℚ` (a pure function).
  * random.gauss(mu, sigma) is modelled as `mu + sigma * z_i` where
    `z_0, z_1, ...` is a stream of standard-normal draws supplied by the
    environment and consumed one per gauss call, matching the library's
    definition of a Gaussian variate.
  * time.time() reads successive values from a clock stream.
  * Each requests.post consumes the next element of a stream of network
    outcomes (an HTTP status code, or a connection error, which raises).
  * print is modelled by appending an abstract message to a console log.
-/

namespace CropSense

/-- Round half to even on rationals, the rounding mode of Python's
built-in round (ties go to the even integer). -/
def rhe (x : ℚ) : ℤ :=
  let f : ℤ := ⌊x⌋
  let r : ℚ := x - f
  if r < 1/2 then f
  else if 1/2 < r then f + 1
  else if f % 2 = 0 then f else f + 1

/-- Python round(x, n): round to n decimal places, half to even. -/
def pyRound (n : ℕ) (x : ℚ) : ℚ := (rhe (x * 10 ^ n) : ℚ) / 10 ^ n

/-- Python int(x): truncation toward zero. -/
def pyInt (x : ℚ) : ℤ := if 0 ≤ x then ⌊x⌋ else ⌈x⌉

/-- BASELINES['temperature'] (°C). -/
def BASELINES_temperature : ℚ := 20
/-- BASELINES['humidity'] (%). -/
def BASELINES_humidity : ℚ := 35
/-- BASELINES['pressure'] (kPa). -/
def BASELINES_pressure : ℚ := 101
/-- BASELINES['gasResistance'] (KOhm). -/
def BASELINES_gasResistance : ℚ := 150
/-- BASELINES['mq2_r0'] (Ohm). -/
def BASELINES_mq2_r0 : ℚ := 320

/-- The JSON payload built by SensorSimulator.generate_reading. -/
structure Reading where
  name : String
  plant_id : String
  disease_status : String
  timestamp : ℤ
  temperature : ℚ
  humidity : ℚ
  pressure : ℚ
  gasResistance : ℚ
  mq2_rs : ℚ
  mq2_ratio : ℚ
  mq2_r0 : ℚ
  mq2_delta : ℚ
  mq2_variance : ℚ
  mq2_baseline : ℚ
  deriving DecidableEq

/-- One requests.post call, recorded with its target path and payload. -/
inductive Call where
  | register (name location : String)
  | update (r : Reading)
  deriving DecidableEq

/-- Abstract console messages, one per print statement of the source. -/
inductive Msg where
  | registeredOk (name : String)
  | registrationFailed (name : String)
  | connectionFailedRegister (name : String)
  | sent (name : String) (temp hum gas : ℚ)
  | updateFailedReregistering (name : String)
  | updateStillFailed (name : String)
  | connectionFailedUpdate (name : String)
  | startBanner (numSensors : ℕ)
  | serverBanner
  | intervalBanner
  | dashes
  | sendingReadings
  | simulationStopped
  deriving DecidableEq

/-- Outcome that the environment assigns to one requests.post call. -/
inductive NetResult where
  | status (code : ℕ)
  | connError
  deriving DecidableEq

/-- Python exceptions that the modelled code can raise. -/
inductive PyErr where
  | connectionError
  deriving DecidableEq

/-- The ambient state: environment streams with consumption counters,
plus the observable outputs (network trace and console log). -/
structure World where
  net : ℕ → NetResult
  netIdx : ℕ
  z : ℕ → ℚ
  zIdx : ℕ
  clock : ℕ → ℚ
  clockIdx : ℕ
  trace : List Call
  out : List Msg

/-- requests.post: consumes the next network outcome; a connection error
raises (the error carries the state at raise time). -/
def post (c : Call) (w : World) : Except (PyErr × World) (ℕ × World) :=
  let w' : World := { w with netIdx := w.netIdx + 1, trace := w.trace ++ [c] }
  match w.net w.netIdx with
  | .status n => .ok (n, w')
  | .connError => .error (.connectionError, w')

/-- random.gauss(mu, sigma): mu + sigma * (next standard-normal draw). -/
def gauss (mu sigma : ℚ) (w : World) : ℚ × World :=
  (mu + sigma * w.z w.zIdx, { w with zIdx := w.zIdx + 1 })

/-- time.time(): the next clock value. -/
def pyTimeTime (w : World) : ℚ × World :=
  (w.clock w.clockIdx, { w with clockIdx := w.clockIdx + 1 })

/-- print: append a message to the console log. -/
def pyPrint (m : Msg) (w : World) : World := { w with out := w.out ++ [m] }

/-- Per-node state of class SensorSimulator. -/
structure SensorSimulator where
  name : String
  location : String
  plant_id : String
  disease_status : String
  time_offset : ℚ
  registered : Bool
  gas_resistance_base : ℚ
  deriving DecidableEq

/-- SensorSimulator.__init__ (lines 26-35); the random.uniform(0, 2*pi)
draw is passed in as time_offset. -/
def SensorSimulator.init (name location plant_id disease_status : String)
    (time_offset : ℚ) : SensorSimulator :=
  { name := name
    location := location
    plant_id := plant_id
    disease_status := disease_status
    time_offset := time_offset
    registered := false
    gas_resistance_base := if disease_status = "healthy" then 150 else 50 }

/-- SensorSimulator.generate_reading (lines 52-95), with each environment
read (time.time, random.gauss) threading the world in source order. -/
def SensorSimulator.generate_reading (msin : ℚ → ℚ) (s : SensorSimulator)
    (w : World) : Reading × World :=
  let t := (pyTimeTime w).1 + s.time_offset
  let w1 := (pyTimeTime w).2
  let temp_variation := 2 * msin (t / 60) + (gauss 0 (3/10) w1).1
  let w2 := (gauss 0 (3/10) w1).2
  let temperature := BASELINES_temperature + temp_variation
  let humidity_variation := -(3/2) * msin (t / 60) + (gauss 0 (1/2) w2).1
  let w3 := (gauss 0 (1/2) w2).2
  let humidity := BASELINES_humidity + humidity_variation
  let pressure_variation := (1/2) * msin (t / 300) + (gauss 0 (1/20) w3).1
  let w4 := (gauss 0 (1/20) w3).2
  let pressure := BASELINES_pressure + pressure_variation
  let gas_variation := (gauss 0 (s.gas_resistance_base * (1/10)) w4).1
  let w5 := (gauss 0 (s.gas_resistance_base * (1/10)) w4).2
  let gas_resistance := s.gas_resistance_base + gas_variation
  let mq2_r0 := BASELINES_mq2_r0 + (gauss 0 5 w5).1
  let w6 := (gauss 0 5 w5).2
  let mq2_rs := mq2_r0 * (3 + (gauss 0 (1/5) w6).1)
  let w7 := (gauss 0 (1/5) w6).2
  let mq2_ratio := mq2_rs / mq2_r0
  let mq2_delta := (gauss (3/20) (1/20) w7).1
  let w8 := (gauss (3/20) (1/20) w7).2
  let mq2_variance := (gauss 3 (1/2) w8).1
  let w9 := (gauss 3 (1/2) w8).2
  let mq2_baseline := (gauss (27/20) (1/10) w9).1
  let w10 := (gauss (27/20) (1/10) w9).2
  let ts := pyInt ((pyTimeTime w10).1 * 1000000)
  let w11 := (pyTimeTime w10).2
  ({ name := s.name
     plant_id := s.plant_id
     disease_status := s.disease_status
     timestamp := ts
     temperature := pyRound 2 temperature
     humidity := pyRound 2 humidity
     pressure := pyRound 3 pressure
     gasResistance := pyRound 2 gas_resistance
     mq2_rs := pyRound 2 mq2_rs
     mq2_ratio := pyRound 3 mq2_ratio
     mq2_r0 := pyRound 1 mq2_r0
     mq2_delta := pyRound 4 mq2_delta
     mq2_variance := pyRound 5 mq2_variance
     mq2_baseline := pyRound 4 mq2_baseline }, w11)

/-- SensorSimulator.register (lines 37-50).  The try/except is the match
on the result of post; only requests.exceptions.ConnectionError is
caught, and it is the only exception the modelled call can raise, so the
returned value is always ok. -/
def SensorSimulator.register (s : SensorSimulator) (w : World) :
    Except (PyErr × World) (SensorSimulator × World) :=
  match post (.register s.name s.location) w with
  | .ok (code, w') =>
    if code = 200 then
      .ok ({ s with registered := true }, pyPrint (.registeredOk s.name) w')
    else
      .ok (s, pyPrint (.registrationFailed s.name) w')
  | .error (.connectionError, w') =>
    .ok (s, pyPrint (.connectionFailedRegister s.name) w')

/-- The try block of SensorSimulator.send_reading (lines 103-121),
factored out with the already-generated reading: the first update post;
on a non-200 status, drop the registered flag, re-register and retry the
same payload exactly once; the except clause catches ConnectionError
raised anywhere in the block (so also one raised inside the re-register
call, were that possible). -/
def updateAttempt (s1 : SensorSimulator) (reading : Reading) (w2 : World) :
    Except (PyErr × World) (SensorSimulator × World) :=
  match post (.update reading) w2 with
  | .error (.connectionError, w3) =>
    .ok (s1, pyPrint (.connectionFailedUpdate s1.name) w3)
  | .ok (code, w3) =>
    if code = 200 then
      .ok (s1, pyPrint (.sent s1.name reading.temperature reading.humidity
        reading.gasResistance) w3)
    else
      let w4 := pyPrint (.updateFailedReregistering s1.name) w3
      let s2 : SensorSimulator := { s1 with registered := false }
      match s2.register w4 with
      | .error (.connectionError, w5) =>
        .ok (s2, pyPrint (.connectionFailedUpdate s2.name) w5)
      | .ok (s3, w5) =>
        match post (.update reading) w5 with
        | .error (.connectionError, w6) =>
          .ok (s3, pyPrint (.connectionFailedUpdate s3.name) w6)
        | .ok (code2, w6) =>
          if code2 = 200 then
            .ok (s3, pyPrint (.sent s3.name reading.temperature
              reading.humidity reading.gasResistance) w6)
          else
            .ok (s3, pyPrint (.updateStillFailed s3.name) w6)

/-- SensorSimulator.send_reading (lines 97-121).  Lines 99-102 (the
conditional initial register and generate_reading) run outside the try
block, so an exception there would propagate; the try block itself is
updateAttempt above. -/
def SensorSimulator.send_reading (msin : ℚ → ℚ) (s : SensorSimulator)
    (w : World) : Except (PyErr × World) (SensorSimulator × World) :=
  match (if s.registered then .ok (s, w) else s.register w :
      Except (PyErr × World) (SensorSimulator × World)) with
  | .error ew => .error ew
  | .ok (s1, w1) =>
    updateAttempt s1 (SensorSimulator.generate_reading msin s1 w1).1
      (SensorSimulator.generate_reading msin s1 w1).2

/-- Total extractor for register: register provably never raises, so the
default branch is unreachable. -/
def runRegister (s : SensorSimulator) (w : World) : SensorSimulator × World :=
  match s.register w with
  | .ok p => p
  | .error (_, w') => (s, w')

/-- Total extractor for send_reading: send_reading provably never
raises, so the default branch is unreachable. -/
def runSend (msin : ℚ → ℚ) (s : SensorSimulator) (w : World) :
    SensorSimulator × World :=
  match s.send_reading msin w with
  | .ok p => p
  | .error (_, w') => (s, w')

/-- Total extractor for updateAttempt: the block provably never raises,
so the default branch is unreachable. -/
def runUpdate (s1 : SensorSimulator) (reading : Reading) (w2 : World) :
    SensorSimulator × World :=
  match updateAttempt s1 reading w2 with
  | .ok p => p
  | .error (_, w') => (s1, w')

/-- World reached after one post of the given update payload. -/
def afterPost (r : Reading) (w : World) : World :=
  { w with netIdx := w.netIdx + 1, trace := w.trace ++ [Call.update r] }

/-- The node state reached by the optional initial registration at the
top of send_reading (lines 99-100). -/
def afterInitialRegister (s : SensorSimulator) (w : World) :
    SensorSimulator × World :=
  if s.registered then (s, w) else runRegister s w

/-- Number of update posts in a trace. -/
def updateCount (l : List Call) : ℕ :=
  l.countP fun c => match c with | .update _ => true | _ => false

/-- Number of registration posts in a trace. -/
def registerCount (l : List Call) : ℕ :=
  l.countP fun c => match c with | .register _ _ => true | _ => false

/-- Is this call an update post? -/
def isUpdate (c : Call) : Bool :=
  match c with | .update _ => true | _ => false

/-- Zero-padded two-digit formatting, as in the f-string sensor_{n:02d}. -/
def pad2 (n : ℕ) : String :=
  if n < 10 then "0" ++ toString n else toString n

/-- Zero-padded three-digit formatting, as in plant_{n:03d}. -/
def pad3 (n : ℕ) : String :=
  if n < 10 then "00" ++ toString n
  else if n < 100 then "0" ++ toString n
  else toString n

/-- The sensor-construction loop of main (lines 138-148); the
random.uniform phase draws are supplied by the stream offs. -/
def mkSensors (numSensors : ℕ) (offs : ℕ → ℚ) : List SensorSimulator :=
  (List.range numSensors).map fun i =>
    SensorSimulator.init ("sensor_" ++ pad2 (i + 1))
      ("greenhouse_zone_" ++ toString (i + 1))
      ("plant_" ++ pad3 (i + 1))
      (if i % 3 ≠ 2 then "healthy" else "infected")
      (offs i)

/-- Exceptions visible at the level of main: a SIGINT delivered at an
interruptible point, or a ConnectionError escaping a callee. -/
inductive Exc where
  | keyboardInterrupt
  | connectionError
  deriving DecidableEq

/-
Interrupt model for main: the external SIGINT arrives during the k-th
blocking operation (0-indexed count over the operations at which Python
can raise KeyboardInterrupt here: each register call and each
time.sleep(0.1) of the startup pass, then each send_reading call and
each time.sleep(interval) of the main loop).  The interrupted operation
does not complete.  The parameter step is the count of such operations
already begun.
-/

/-- The initial registration pass of main (lines 156-158): register each
sensor then time.sleep(0.1).  This pass is NOT inside any try block, so
both KeyboardInterrupt and any escaping error propagate. -/
def regPass (sensors : List SensorSimulator) (w : World) (k step : ℕ) :
    Except (Exc × World) (List SensorSimulator × World × ℕ) :=
  match sensors with
  | [] => .ok ([], w, step)
  | s :: rest =>
    if step = k then .error (.keyboardInterrupt, w)
    else
      match s.register w with
      | .error (.connectionError, w') => .error (.connectionError, w')
      | .ok (s', w') =>
        if step + 1 = k then .error (.keyboardInterrupt, w')
        else
          match regPass rest w' k (step + 2) with
          | .error ew => .error ew
          | .ok (rest', w2, step2) => .ok (s' :: rest', w2, step2)

/-- One pass of the inner for-loop of main (lines 167-168): send a
reading for each sensor in order. -/
def loopSensors (msin : ℚ → ℚ) (sensors : List SensorSimulator)
    (w : World) (k step : ℕ) :
    Except (Exc × World) (List SensorSimulator × World × ℕ) :=
  match sensors with
  | [] => .ok ([], w, step)
  | s :: rest =>
    if step = k then .error (.keyboardInterrupt, w)
    else
      match s.send_reading msin w with
      | .error (.connectionError, w') => .error (.connectionError, w')
      | .ok (s', w') =>
        match loopSensors msin rest w' k (step + 1) with
        | .error ew => .error ew
        | .ok (rest', w2, step2) => .ok (s' :: rest', w2, step2)

/-- The while True loop of main (lines 166-169): a full pass over the
sensors, then time.sleep(interval).  The source loop only ends by an
exception; fuel bounds the modelled number of iterations, and none
means the fuel ran out before the scheduled interrupt was reached. -/
def mainLoop (msin : ℚ → ℚ) (fuel : ℕ) (sensors : List SensorSimulator)
    (w : World) (k step : ℕ) : Option (Exc × World) :=
  match fuel with
  | 0 => none
  | f + 1 =>
    match loopSensors msin sensors w k step with
    | .error ew => some ew
    | .ok (ss, w', step') =>
      if step' = k then some (.keyboardInterrupt, w')
      else mainLoop msin f ss w' k (step' + 1)

/-- main (lines 124-171): build the sensors, print the banner, run the
registration pass (uncovered by try), then the main loop inside
try/except KeyboardInterrupt, which on interrupt prints the final
message and returns normally. -/
def pyMain (msin : ℚ → ℚ) (numSensors : ℕ) (offs : ℕ → ℚ) (k : ℕ)
    (w : World) : Option (Except (Exc × World) World) :=
  let sensors := mkSensors numSensors offs
  let w0 := pyPrint .dashes (pyPrint .intervalBanner (pyPrint .serverBanner
    (pyPrint (.startBanner sensors.length) w)))
  match regPass sensors w0 k 0 with
  | .error ew => some (.error ew)
  | .ok (ss, w1, step) =>
    let w2 := pyPrint .dashes (pyPrint .sendingReadings (pyPrint .dashes w1))
    match mainLoop msin (k + 2) ss w2 k step with
    | none => none
    | some (.keyboardInterrupt, w3) => some (.ok (pyPrint .simulationStopped w3))
    | some (.connectionError, w3) => some (.error (.connectionError, w3))

/-- Process exit status of the CPython interpreter for each outcome: a
normal return from main exits 0; an uncaught KeyboardInterrupt kills the
process with SIGINT (128 + 2); any other uncaught exception exits 1. -/
def excExitCode : Exc → ℕ
  | .keyboardInterrupt => 130
  | .connectionError => 1

/-- Exit code of a modelled run of the process. -/
def pyExit (r : Option (Except (Exc × World) World)) : Option ℕ :=
  match r with
  | none => none
  | some (.ok _) => some 0
  | some (.error (e, _)) => some (excExitCode e)

/-- Console log of a modelled run of the process. -/
def pyMainMsgs (r : Option (Except (Exc × World) World)) : Option (List Msg) :=
  match r with
  | none => none
  | some (.ok w) => some w.out
  | some (.error (_, w)) => some w.out

/-- Equality of every per-node field except the registered flag. -/
def coreEq (s s' : SensorSimulator) : Prop :=
  s'.name = s.name ∧ s'.location = s.location ∧ s'.plant_id = s.plant_id ∧
  s'.disease_status = s.disease_status ∧ s'.time_offset = s.time_offset ∧
  s'.gas_resistance_base = s.gas_resistance_base

/-- The three operations a node is subjected to after construction. -/
inductive Op where
  | doRegister
  | doSend
  | doGenerate
  deriving DecidableEq

/-- Run one operation on a node (generate_reading returns no node, so
it only advances the world). -/
def runOp (msin : ℚ → ℚ) (o : Op) (s : SensorSimulator) (w : World) :
    SensorSimulator × World :=
  match o with
  | .doRegister => runRegister s w
  | .doSend => runSend msin s w
  | .doGenerate => (s, (SensorSimulator.generate_reading msin s w).2)

/-- Run a sequence of operations on a node. -/
def runOps (msin : ℚ → ℚ) (ops : List Op) (s : SensorSimulator) (w : World) :
    SensorSimulator × World :=
  match ops with
  | [] => (s, w)
  | o :: rest => runOps msin rest (runOp msin o s w).1 (runOp msin o s w).2

/-! Concrete fixtures for counterexamples and witnesses. -/

/-- Degenerate stand-in for math.sin in concrete runs. -/
def msinZero : ℚ → ℚ := fun _ => 0

/-- A quiet environment: every post gets a 200, every draw is 0, the
clock reads 0. -/
def zeroWorld : World :=
  { net := fun _ => .status 200, netIdx := 0, z := fun _ => 0, zIdx := 0,
    clock := fun _ => 0, clockIdx := 0, trace := [], out := [] }

/-- The first sensor main builds. -/
def sHealthy : SensorSimulator :=
  SensorSimulator.init "sensor_01" "greenhouse_zone_1" "plant_001"
    "healthy" 0

/-- Environment whose fifth standard-normal draw makes the unrounded
mq2_r0 equal 0.14, which rounds to 0.1 at 1 decimal. -/
def wC3 : World :=
  { zeroWorld with z := fun i => if i = 4 then -63972/1000 else 0 }

/-- Does this response make send_reading take its re-register branch?
Only a reachable non-200 status does; a connection error does not (it
jumps to the except clause instead). -/
def isReject : NetResult → Bool
  | .status n => decide (n ≠ 200)
  | .connError => false

/-- A node that is already registered. -/
def sReg : SensorSimulator := { sHealthy with registered := true }

/-- Environment in which every post is rejected with status 500. -/
def wReject : World := { zeroWorld with net := fun _ => .status 500 }

/-- Environment in which every post hits a connection error. -/
def wConn : World := { zeroWorld with net := fun _ => .connError }

attribute [ext] World

/-! Helper lemmas. -/

/-- register never raises: the only exception its body can meet is the
ConnectionError of its own post, which its except clause catches. -/
lemma register_ok (s : SensorSimulator) (w : World) :
    ∃ s' w', s.register w = .ok (s', w') := by
  unfold SensorSimulator.register post
  rcases h : w.net w.netIdx with n | _
  · by_cases hn : n = 200 <;> simp [h, hn]
  · simp [h]

/-- register agrees with its total extractor. -/
lemma register_runRegister (s : SensorSimulator) (w : World) :
    s.register w = .ok (runRegister s w) := by
  obtain ⟨s', w', h⟩ := register_ok s w
  simp [runRegister, h]

/-- Full characterization of one register call: exactly one post on the
registration path, flag set on a 200 response and untouched otherwise,
one message printed. -/
lemma runRegister_eq (s : SensorSimulator) (w : World) :
    runRegister s w =
      ((if w.net w.netIdx = .status 200 then { s with registered := true }
        else s),
       pyPrint
         (if w.net w.netIdx = .status 200 then Msg.registeredOk s.name
          else if w.net w.netIdx = .connError then
            Msg.connectionFailedRegister s.name
          else Msg.registrationFailed s.name)
         { w with netIdx := w.netIdx + 1,
                  trace := w.trace ++ [Call.register s.name s.location] }) := by
  unfold runRegister SensorSimulator.register post
  rcases h : w.net w.netIdx with n | _
  · by_cases hn : n = 200 <;> simp [h, hn]
  · simp [h]

/-- The try block of send_reading never raises: every post or register
inside it is covered by the except clause. -/
lemma updateAttempt_ok (s1 : SensorSimulator) (reading : Reading)
    (w2 : World) : ∃ s' w', updateAttempt s1 reading w2 = .ok (s', w') := by
  unfold updateAttempt post
  rcases h2 : w2.net w2.netIdx with n | _
  · by_cases hn : n = 200
    · simp [h2, hn]
    · simp only [h2, hn, if_neg, register_runRegister]
      rcases h5 : (runRegister { s1 with registered := false }
          (pyPrint (.updateFailedReregistering s1.name)
            { w2 with netIdx := w2.netIdx + 1,
                      trace := w2.trace ++ [Call.update reading] })) with ⟨s3, w5⟩
      rcases h6 : w5.net w5.netIdx with m | _
      · by_cases hm : m = 200 <;> simp [h2, hn, h5, h6, hm]
      · simp [h2, hn, h5, h6]
  · simp [h2]

/-- updateAttempt agrees with its total extractor. -/
lemma updateAttempt_runUpdate (s1 : SensorSimulator) (reading : Reading)
    (w2 : World) : updateAttempt s1 reading w2 = .ok (runUpdate s1 reading w2) := by
  obtain ⟨s', w', h⟩ := updateAttempt_ok s1 reading w2
  simp [runUpdate, h]

/-- Full characterization of the try block: one update post; on a 200 it
stops there; on a connection error it stops there; on any other status
it posts one re-registration and exactly one more update of the same
payload, and the flag drop survives unless the re-registration got a
200. -/
lemma runUpdate_eq (s1 : SensorSimulator) (reading : Reading) (w2 : World) :
    runUpdate s1 reading w2 =
      (if w2.net w2.netIdx = .status 200 then
        (s1, pyPrint (.sent s1.name reading.temperature reading.humidity
          reading.gasResistance) (afterPost reading w2))
      else if w2.net w2.netIdx = .connError then
        (s1, pyPrint (.connectionFailedUpdate s1.name) (afterPost reading w2))
      else
        let q := runRegister { s1 with registered := false }
          (pyPrint (.updateFailedReregistering s1.name) (afterPost reading w2))
        if q.2.net q.2.netIdx = .status 200 then
          (q.1, pyPrint (.sent q.1.name reading.temperature reading.humidity
            reading.gasResistance) (afterPost reading q.2))
        else if q.2.net q.2.netIdx = .connError then
          (q.1, pyPrint (.connectionFailedUpdate q.1.name)
            (afterPost reading q.2))
        else
          (q.1, pyPrint (.updateStillFailed q.1.name)
            (afterPost reading q.2))) := by
  unfold runUpdate updateAttempt post
  rcases h2 : w2.net w2.netIdx with n | _
  · by_cases hn : n = 200
    · simp [h2, hn, afterPost]
    · simp only [h2, hn, if_neg, register_runRegister]
      rcases h5 : (runRegister { s1 with registered := false }
          (pyPrint (.updateFailedReregistering s1.name)
            { w2 with netIdx := w2.netIdx + 1,
                      trace := w2.trace ++ [Call.update reading] })) with ⟨s3, w5⟩
      rcases h6 : w5.net w5.netIdx with m | _
      · by_cases hm : m = 200 <;> simp [h2, hn, h5, h6, hm, afterPost]
      · simp [h2, hn, h5, h6, afterPost]
  · simp [h2, afterPost]

/-- send_reading never raises. -/
lemma send_reading_ok (msin : ℚ → ℚ) (s : SensorSimulator) (w : World) :
    ∃ s' w', s.send_reading msin w = .ok (s', w') := by
  unfold SensorSimulator.send_reading
  cases hreg : s.registered
  · simp only [hreg, Bool.false_eq_true, if_false, register_runRegister]
    exact updateAttempt_ok _ _ _
  · simp only [hreg, if_true]
    exact updateAttempt_ok _ _ _

/-- send_reading agrees with its total extractor. -/
lemma send_runSend (msin : ℚ → ℚ) (s : SensorSimulator) (w : World) :
    s.send_reading msin w = .ok (runSend msin s w) := by
  obtain ⟨s', w', h⟩ := send_reading_ok msin s w
  simp [runSend, h]

/-- runSend decomposes into the optional initial registration, one
reading generation, and the try block. -/
lemma runSend_eq (msin : ℚ → ℚ) (s : SensorSimulator) (w : World) :
    runSend msin s w =
      runUpdate (afterInitialRegister s w).1
        (SensorSimulator.generate_reading msin (afterInitialRegister s w).1
          (afterInitialRegister s w).2).1
        (SensorSimulator.generate_reading msin (afterInitialRegister s w).1
          (afterInitialRegister s w).2).2 := by
  unfold runSend SensorSimulator.send_reading afterInitialRegister
  cases hreg : s.registered
  · simp [hreg, register_runRegister, updateAttempt_runUpdate]
  · simp [hreg, updateAttempt_runUpdate]

/-- The world effect of one generate_reading call: nine gauss draws and
two clock reads, nothing else. -/
lemma generate_world (msin : ℚ → ℚ) (s : SensorSimulator) (w : World) :
    (SensorSimulator.generate_reading msin s w).2 =
      { w with zIdx := w.zIdx + 9, clockIdx := w.clockIdx + 2 } := by
  unfold SensorSimulator.generate_reading gauss pyTimeTime
  ext <;> simp

/-- coreEq is reflexive. -/
lemma coreEq_refl (s : SensorSimulator) : coreEq s s := by simp [coreEq]

/-- coreEq is transitive. -/
lemma coreEq_trans {s s' s'' : SensorSimulator} (h1 : coreEq s s')
    (h2 : coreEq s' s'') : coreEq s s'' := by
  obtain ⟨a1, b1, c1, d1, e1, f1⟩ := h1
  obtain ⟨a2, b2, c2, d2, e2, f2⟩ := h2
  exact ⟨a2.trans a1, b2.trans b1, c2.trans c1, d2.trans d1, e2.trans e1,
    f2.trans f1⟩

/-- Register touches no node field but the flag. -/
lemma runRegister_core (s : SensorSimulator) (w : World) :
    coreEq s (runRegister s w).1 := by
  rw [runRegister_eq]
  dsimp only
  split <;> simp [coreEq]

/-- World effect of one register call: one consumed network response,
one registration post in the trace, no draws and no clock reads. -/
lemma runRegister_world (s : SensorSimulator) (w : World) :
    (runRegister s w).2.net = w.net ∧
    (runRegister s w).2.netIdx = w.netIdx + 1 ∧
    (runRegister s w).2.z = w.z ∧
    (runRegister s w).2.zIdx = w.zIdx ∧
    (runRegister s w).2.clock = w.clock ∧
    (runRegister s w).2.clockIdx = w.clockIdx ∧
    (runRegister s w).2.trace = w.trace ++ [Call.register s.name s.location] := by
  rw [runRegister_eq]
  simp [pyPrint]

/-- Node outcome of the try block: on a 200 or a connection error the
node comes back untouched; on any other status the flag is dropped and
then re-registration decides its final value. -/
lemma runUpdate_fst (s1 : SensorSimulator) (reading : Reading) (w2 : World) :
    (runUpdate s1 reading w2).1 =
      if isReject (w2.net w2.netIdx) then
        (if w2.net (w2.netIdx + 1) = .status 200 then
          { s1 with registered := true }
        else { s1 with registered := false })
      else s1 := by
  rw [runUpdate_eq]
  rcases h2 : w2.net w2.netIdx with n | _
  · by_cases hn : n = 200
    · simp [h2, hn, isReject]
    · rw [if_neg (by simp [hn]), if_neg (by simp)]
      have hiR : isReject (NetResult.status n) = true := by
        simp [isReject, hn]
      rw [hiR]
      split_ifs with hc1 hc2 <;>
        (rw [runRegister_eq]; simp [pyPrint, afterPost]) <;>
        split_ifs <;> simp_all [pyPrint, afterPost]
  · simp [h2, isReject]

/-- Trace effect of the try block: one update post, followed — exactly
when the first response is a reachable non-200 status — by one
re-registration post and one retry of the same payload.  Never a third
update attempt. -/
lemma runUpdate_trace (s1 : SensorSimulator) (reading : Reading) (w2 : World) :
    (runUpdate s1 reading w2).2.trace =
      w2.trace ++
        (if isReject (w2.net w2.netIdx) then
          [Call.update reading, Call.register s1.name s1.location,
           Call.update reading]
        else [Call.update reading]) := by
  rw [runUpdate_eq]
  rcases h2 : w2.net w2.netIdx with n | _
  · by_cases hn : n = 200
    · simp [hn, isReject, pyPrint, afterPost]
    · rw [if_neg (by simp [hn]), if_neg (by simp)]
      have hiR : isReject (NetResult.status n) = true := by
        simp [isReject, hn]
      rw [hiR]
      split_ifs <;> (rw [runRegister_eq]; simp [pyPrint, afterPost]) <;>
        split_ifs <;> simp_all
  · simp [isReject, pyPrint, afterPost]

/-- The try block draws no randomness, reads no clock, and leaves the
environment streams untouched. -/
lemma runUpdate_world (s1 : SensorSimulator) (reading : Reading) (w2 : World) :
    (runUpdate s1 reading w2).2.z = w2.z ∧
    (runUpdate s1 reading w2).2.zIdx = w2.zIdx ∧
    (runUpdate s1 reading w2).2.clock = w2.clock ∧
    (runUpdate s1 reading w2).2.clockIdx = w2.clockIdx ∧
    (runUpdate s1 reading w2).2.net = w2.net := by
  rw [runUpdate_eq]
  rcases h2 : w2.net w2.netIdx with n | _
  · by_cases hn : n = 200
    · simp [hn, pyPrint, afterPost]
    · rw [if_neg (by simp [hn]), if_neg (by simp)]
      rcases hq : runRegister { s1 with registered := false }
          (pyPrint (.updateFailedReregistering s1.name)
            (afterPost reading w2)) with ⟨s3, w5⟩
      have hw := runRegister_world { s1 with registered := false }
        (pyPrint (.updateFailedReregistering s1.name) (afterPost reading w2))
      rw [hq] at hw
      have hz : w5.z = w2.z := by
        have := hw.2.2.1; simpa [pyPrint, afterPost] using this
      have hzi : w5.zIdx = w2.zIdx := by
        have := hw.2.2.2.1; simpa [pyPrint, afterPost] using this
      have hc : w5.clock = w2.clock := by
        have := hw.2.2.2.2.1; simpa [pyPrint, afterPost] using this
      have hci : w5.clockIdx = w2.clockIdx := by
        have := hw.2.2.2.2.2.1; simpa [pyPrint, afterPost] using this
      have hnet : w5.net = w2.net := by
        have := hw.1; simpa [pyPrint, afterPost] using this
      simp only [hq]
      split_ifs <;> simp [pyPrint, afterPost, hz, hzi, hc, hci, hnet]
  · simp [pyPrint, afterPost]

/-- The try block touches no node field but the flag. -/
lemma runUpdate_core (s1 : SensorSimulator) (reading : Reading) (w2 : World) :
    coreEq s1 (runUpdate s1 reading w2).1 := by
  rw [runUpdate_fst]
  split_ifs <;> simp [coreEq]

/-- The optional initial registration touches no node field but the
flag. -/
lemma afterInitialRegister_core (s : SensorSimulator) (w : World) :
    coreEq s (afterInitialRegister s w).1 := by
  unfold afterInitialRegister
  split
  · exact coreEq_refl s
  · exact runRegister_core s w

/-- The optional initial registration draws no randomness and reads no
clock. -/
lemma afterInitialRegister_world (s : SensorSimulator) (w : World) :
    (afterInitialRegister s w).2.z = w.z ∧
    (afterInitialRegister s w).2.zIdx = w.zIdx ∧
    (afterInitialRegister s w).2.clock = w.clock ∧
    (afterInitialRegister s w).2.clockIdx = w.clockIdx := by
  unfold afterInitialRegister
  split
  · exact ⟨rfl, rfl, rfl, rfl⟩
  · obtain ⟨_, _, h3, h4, h5, h6, _⟩ := runRegister_world s w
    exact ⟨h3, h4, h5, h6⟩

/-- send_reading touches no node field but the flag. -/
lemma runSend_core (msin : ℚ → ℚ) (s : SensorSimulator) (w : World) :
    coreEq s (runSend msin s w).1 := by
  rw [runSend_eq]
  exact coreEq_trans (afterInitialRegister_core s w) (runUpdate_core _ _ _)

/-- Master description of one send_reading call, relative to the state
reached by the optional initial registration: the trace gains one update
of the one generated reading (plus, exactly on a reachable rejection of
it, one re-registration and one retry of the same reading); exactly
nine draws and two clock reads are consumed; the node's flag ends as
the retry path dictates. -/
lemma runSend_spec (msin : ℚ → ℚ) (s : SensorSimulator) (w : World) :
    (runSend msin s w).2.trace =
      (afterInitialRegister s w).2.trace ++
        (if isReject ((afterInitialRegister s w).2.net
            ((afterInitialRegister s w).2.netIdx)) then
          [Call.update (SensorSimulator.generate_reading msin
              (afterInitialRegister s w).1 (afterInitialRegister s w).2).1,
           Call.register (afterInitialRegister s w).1.name
             (afterInitialRegister s w).1.location,
           Call.update (SensorSimulator.generate_reading msin
              (afterInitialRegister s w).1 (afterInitialRegister s w).2).1]
        else
          [Call.update (SensorSimulator.generate_reading msin
              (afterInitialRegister s w).1 (afterInitialRegister s w).2).1]) ∧
    (runSend msin s w).2.zIdx = (afterInitialRegister s w).2.zIdx + 9 ∧
    (runSend msin s w).2.clockIdx = (afterInitialRegister s w).2.clockIdx + 2 ∧
    (runSend msin s w).1 =
      (if isReject ((afterInitialRegister s w).2.net
          ((afterInitialRegister s w).2.netIdx)) then
        (if (afterInitialRegister s w).2.net
            ((afterInitialRegister s w).2.netIdx + 1) = .status 200 then
          { (afterInitialRegister s w).1 with registered := true }
        else { (afterInitialRegister s w).1 with registered := false })
      else (afterInitialRegister s w).1) := by
  rw [runSend_eq]
  have hW := generate_world msin (afterInitialRegister s w).1
    (afterInitialRegister s w).2
  refine ⟨?_, ?_, ?_, ?_⟩
  · rw [runUpdate_trace, hW]
  · have h := (runUpdate_world (afterInitialRegister s w).1
      (SensorSimulator.generate_reading msin (afterInitialRegister s w).1
        (afterInitialRegister s w).2).1
      (SensorSimulator.generate_reading msin (afterInitialRegister s w).1
        (afterInitialRegister s w).2).2).2.1
    rw [h, hW]
  · have h := (runUpdate_world (afterInitialRegister s w).1
      (SensorSimulator.generate_reading msin (afterInitialRegister s w).1
        (afterInitialRegister s w).2).1
      (SensorSimulator.generate_reading msin (afterInitialRegister s w).1
        (afterInitialRegister s w).2).2).2.2.2.1
    rw [h, hW]
  · rw [runUpdate_fst, hW]

/-- One send_reading call on an already-registered node: the rejection
branch is entered exactly on a reachable non-200 first response (then
one re-registration and one retry of the same reading, after which the
flag reflects the re-registration's outcome); a connection failure of
the first submission leaves the node untouched with no retry. -/
lemma send_registered_spec (msin : ℚ → ℚ) (s : SensorSimulator) (w : World)
    (hreg : s.registered = true) :
    (runSend msin s w).2.trace =
      w.trace ++
        (if isReject (w.net w.netIdx) then
          [Call.update (SensorSimulator.generate_reading msin s w).1,
           Call.register s.name s.location,
           Call.update (SensorSimulator.generate_reading msin s w).1]
        else [Call.update (SensorSimulator.generate_reading msin s w).1]) ∧
    (isReject (w.net w.netIdx) = true →
      ((runSend msin s w).1.registered = true ↔
        w.net (w.netIdx + 1) = .status 200)) ∧
    (w.net w.netIdx = .connError → (runSend msin s w).1 = s) := by
  have hAfter : afterInitialRegister s w = (s, w) := by
    simp [afterInitialRegister, hreg]
  obtain ⟨ht, _, _, hf⟩ := runSend_spec msin s w
  rw [hAfter] at ht hf
  dsimp only at ht hf
  refine ⟨ht, ?_, ?_⟩
  · intro hrej
    rw [hf, if_pos hrej]
    split_ifs with hc <;> simp [hc]
  · intro hconn
    rw [hf]
    have hiR : isReject (w.net w.netIdx) = false := by
      rw [hconn]; rfl
    simp [hiR]

/-- The sensor lists built by main have the configured length. -/
lemma mkSensors_length (numSensors : ℕ) (offs : ℕ → ℚ) :
    (mkSensors numSensors offs).length = numSensors := by
  simp [mkSensors]

/-- If the interrupt is not scheduled during this pass, the inner
for-loop sends one reading per node and finishes with all nodes. -/
lemma loopSensors_no_interrupt (msin : ℚ → ℚ)
    (sensors : List SensorSimulator) (w : World) (k step : ℕ)
    (h : ∀ j, j < sensors.length → step + j ≠ k) :
    ∃ ss w', loopSensors msin sensors w k step =
        .ok (ss, w', step + sensors.length) ∧
      ss.length = sensors.length := by
  induction sensors generalizing w step with
  | nil => exact ⟨[], w, by simp [loopSensors], rfl⟩
  | cons s rest ih =>
    have hstep : step ≠ k := by simpa using h 0 (by simp)
    obtain ⟨ss, w', hrec, hlen⟩ := ih (runSend msin s w).2 (step + 1)
      (fun j hj => by
        have := h (j + 1) (by simpa using Nat.succ_lt_succ hj)
        omega)
    refine ⟨(runSend msin s w).1 :: ss, w', ?_, by simp [hlen]⟩
    have harith : step + (s :: rest).length = step + 1 + rest.length := by
      simp [List.length_cons]
      omega
    rw [harith]
    unfold loopSensors
    rw [if_neg hstep, send_runSend]
    simp [hrec]

/-- If the interrupt is scheduled during this pass, the inner for-loop
raises KeyboardInterrupt. -/
lemma loopSensors_interrupt (msin : ℚ → ℚ)
    (sensors : List SensorSimulator) (w : World) (k step : ℕ)
    (h1 : step ≤ k) (h2 : k < step + sensors.length) :
    ∃ w', loopSensors msin sensors w k step =
      .error (.keyboardInterrupt, w') := by
  induction sensors generalizing w step with
  | nil => simp at h2; omega
  | cons s rest ih =>
    by_cases hstep : step = k
    · exact ⟨w, by unfold loopSensors; rw [if_pos hstep]⟩
    · obtain ⟨w', hrec⟩ := ih (runSend msin s w).2 (step + 1)
        (by omega) (by simp at h2 ⊢; omega)
      refine ⟨w', ?_⟩
      unfold loopSensors
      rw [if_neg hstep, send_runSend]
      simp [hrec]

/-- The while-True loop always reaches the scheduled interrupt, given
enough fuel, and surfaces KeyboardInterrupt. -/
lemma mainLoop_interrupt (msin : ℚ → ℚ) :
    ∀ (fuel : ℕ) (sensors : List SensorSimulator) (w : World) (k step : ℕ),
      step ≤ k → k + 1 ≤ fuel + step →
      ∃ w', mainLoop msin fuel sensors w k step =
        some (.keyboardInterrupt, w') := by
  intro fuel
  induction fuel with
  | zero => intro sensors w k step h1 h2; omega
  | succ f ih =>
    intro sensors w k step h1 h2
    by_cases hin : k < step + sensors.length
    · obtain ⟨w', hl⟩ := loopSensors_interrupt msin sensors w k step h1 hin
      exact ⟨w', by unfold mainLoop; rw [hl]⟩
    · push_neg at hin
      obtain ⟨ss, w', hok, hlen⟩ := loopSensors_no_interrupt msin sensors w
        k step (fun j hj => by omega)
      by_cases hk : step + sensors.length = k
      · exact ⟨w', by unfold mainLoop; rw [hok]; simp [hk]⟩
      · obtain ⟨w'', hrec⟩ := ih ss w' k (step + sensors.length + 1)
          (by omega) (by omega)
        exact ⟨w'', by unfold mainLoop; rw [hok]; simp [hk, hrec]⟩

/-- If the interrupt is not scheduled during the startup registration
pass, that pass registers every node and completes. -/
lemma regPass_no_interrupt (sensors : List SensorSimulator) (w : World)
    (k step : ℕ) (h : ∀ j, j < 2 * sensors.length → step + j ≠ k) :
    ∃ ss w', regPass sensors w k step =
        .ok (ss, w', step + 2 * sensors.length) ∧
      ss.length = sensors.length := by
  induction sensors generalizing w step with
  | nil => exact ⟨[], w, by simp [regPass], rfl⟩
  | cons s rest ih =>
    have h0 : step ≠ k := by
      simpa using h 0 (by simp [Nat.mul_add])
    have h1 : step + 1 ≠ k := by
      have := h 1 (by simp [Nat.mul_add])
      simpa using this
    obtain ⟨ss, w', hrec, hlen⟩ := ih (runRegister s w).2 (step + 2)
      (fun j hj => by
        have := h (j + 2) (by simp [Nat.mul_add] at hj ⊢; omega)
        omega)
    refine ⟨(runRegister s w).1 :: ss, w', ?_, by simp [hlen]⟩
    unfold regPass
    rw [register_runRegister]
    simp [h0, h1, hrec]
    omega

/-- Any single operation touches no node field but the flag. -/
lemma runOp_core (msin : ℚ → ℚ) (o : Op) (s : SensorSimulator) (w : World) :
    coreEq s (runOp msin o s w).1 := by
  cases o with
  | doRegister => exact runRegister_core s w
  | doSend => exact runSend_core msin s w
  | doGenerate => exact coreEq_refl s

/-- Any sequence of operations touches no node field but the flag. -/
lemma runOps_core (msin : ℚ → ℚ) (ops : List Op) (s : SensorSimulator)
    (w : World) : coreEq s (runOps msin ops s w).1 := by
  induction ops generalizing s w with
  | nil => exact coreEq_refl s
  | cons o rest ih =>
    exact coreEq_trans (runOp_core msin o s w)
      (ih (runOp msin o s w).1 (runOp msin o s w).2)

/-- Claim C5: for every configured node count, exactly the nodes at
0-indexed positions i with i % 3 = 2 are classified infected and all
other nodes are classified healthy. -/
theorem C5_every_third_node_infected (numSensors : ℕ) (offs : ℕ → ℚ) :
    (mkSensors numSensors offs).map (fun s => s.disease_status) =
      (List.range numSensors).map
        (fun i => if i % 3 = 2 then "infected" else "healthy") := by
  unfold mkSensors
  simp only [List.map_map]
  congr 1
  funext i
  by_cases h : i % 3 = 2 <;> simp [SensorSimulator.init, Function.comp, h]

/-- Claim C6: every Reading's temperature is 20.0 plus a 2.0-amplitude
sinusoid in (now + phaseOffset)/60 plus a Gaussian draw of standard
deviation 0.3, rounded to 2 decimals; humidity is 35.0 minus a
1.5-amplitude sinusoid at the same phase plus a Gaussian draw of
standard deviation 0.5, rounded to 2 decimals; the two sinusoidal terms
are related by the factor -0.75. -/
theorem C6_temperature_humidity_sinusoids (msin : ℚ → ℚ)
    (s : SensorSimulator) (w : World) :
    (SensorSimulator.generate_reading msin s w).1.temperature =
      pyRound 2 (20 + (2 * msin ((w.clock w.clockIdx + s.time_offset) / 60) +
        (3/10) * w.z w.zIdx)) ∧
    (SensorSimulator.generate_reading msin s w).1.humidity =
      pyRound 2 (35 + (-(3/2) * msin ((w.clock w.clockIdx + s.time_offset) / 60) +
        (1/2) * w.z (w.zIdx + 1))) ∧
    ∀ x : ℚ, -(3/2) * msin x = -(3/4) * (2 * msin x) := by
  refine ⟨?_, ?_, fun x => by ring⟩
  · simp [SensorSimulator.generate_reading, gauss, pyTimeTime,
      BASELINES_temperature]
  · simp [SensorSimulator.generate_reading, gauss, pyTimeTime,
      BASELINES_humidity]

/-- The mq2 group of fields in terms of the raw draws: the ratio is
computed from the unrounded intermediates. -/
lemma generate_mq2_fields (msin : ℚ → ℚ) (s : SensorSimulator) (w : World) :
    (SensorSimulator.generate_reading msin s w).1.mq2_ratio =
      pyRound 3 ((320 + 5 * w.z (w.zIdx + 4)) * (3 + (1/5) * w.z (w.zIdx + 5)) /
        (320 + 5 * w.z (w.zIdx + 4))) ∧
    (SensorSimulator.generate_reading msin s w).1.mq2_rs =
      pyRound 2 ((320 + 5 * w.z (w.zIdx + 4)) * (3 + (1/5) * w.z (w.zIdx + 5))) ∧
    (SensorSimulator.generate_reading msin s w).1.mq2_r0 =
      pyRound 1 (320 + 5 * w.z (w.zIdx + 4)) := by
  refine ⟨?_, ?_, ?_⟩ <;>
    simp [SensorSimulator.generate_reading, gauss, pyTimeTime,
      BASELINES_mq2_r0]

/-- Claim C3 (amended): the reported mq2_ratio is the quotient of the
unrounded mq2_rs and mq2_r0 intermediates, rounded to 3 decimals; the
reported mq2_rs and mq2_r0 fields are those same intermediates rounded
to 2 and 1 decimals.  (The further consequence claimed — that mq2_ratio
always matches the quotient of the two rounded fields to within 3
decimal places — is refuted by the counterexample.) -/
theorem C3_ratio_from_unrounded (msin : ℚ → ℚ) (s : SensorSimulator)
    (w : World) :
    (SensorSimulator.generate_reading msin s w).1.mq2_ratio =
      pyRound 3 ((320 + 5 * w.z (w.zIdx + 4)) * (3 + (1/5) * w.z (w.zIdx + 5)) /
        (320 + 5 * w.z (w.zIdx + 4))) ∧
    (SensorSimulator.generate_reading msin s w).1.mq2_rs =
      pyRound 2 ((320 + 5 * w.z (w.zIdx + 4)) * (3 + (1/5) * w.z (w.zIdx + 5))) ∧
    (SensorSimulator.generate_reading msin s w).1.mq2_r0 =
      pyRound 1 (320 + 5 * w.z (w.zIdx + 4)) :=
  generate_mq2_fields msin s w

/-- Claim C3 counterexample: with a draw that makes the unrounded mq2_r0
equal 0.14, the Reading carries mq2_ratio = 3.0, mq2_rs = 0.42 and
mq2_r0 = 0.1, and 0.42 / 0.1 = 4.2 differs from 3.0 by far more than
the 3-decimal tolerance, refuting the claim's second half. -/
theorem C3_counterexample :
    (SensorSimulator.generate_reading msinZero sHealthy wC3).1.mq2_ratio = 3 ∧
    (SensorSimulator.generate_reading msinZero sHealthy wC3).1.mq2_rs = 21/50 ∧
    (SensorSimulator.generate_reading msinZero sHealthy wC3).1.mq2_r0 = 1/10 ∧
    ¬ |(SensorSimulator.generate_reading msinZero sHealthy wC3).1.mq2_ratio -
        (SensorSimulator.generate_reading msinZero sHealthy wC3).1.mq2_rs /
        (SensorSimulator.generate_reading msinZero sHealthy wC3).1.mq2_r0| ≤
      1/1000 := by
  obtain ⟨h1, h2, h3⟩ := generate_mq2_fields msinZero sHealthy wC3
  rw [h1, h2, h3]
  have hz4 : wC3.z (wC3.zIdx + 4) = -63972/1000 := by
    norm_num [wC3, zeroWorld]
  have hz5 : wC3.z (wC3.zIdx + 5) = 0 := by
    norm_num [wC3, zeroWorld]
  rw [hz4, hz5]
  have e1 : ((320 : ℚ) + 5 * (-63972/1000)) * (3 + (1/5) * 0) /
      (320 + 5 * (-63972/1000)) = 3 := by norm_num
  have e2 : ((320 : ℚ) + 5 * (-63972/1000)) * (3 + (1/5) * 0) = 21/50 := by
    norm_num
  have e3 : ((320 : ℚ) + 5 * (-63972/1000)) = 7/50 := by norm_num
  rw [e1, e2, e3]
  have r1 : pyRound 3 (3 : ℚ) = 3 := by norm_num [pyRound, rhe]
  have r2 : pyRound 2 (21/50 : ℚ) = 21/50 := by norm_num [pyRound, rhe]
  have r3 : pyRound 1 (7/50 : ℚ) = 1/10 := by norm_num [pyRound, rhe]
  rw [r1, r2, r3]
  refine ⟨rfl, rfl, rfl, ?_⟩
  have habs : |(3 : ℚ) - (21/50) / (1/10)| = 6/5 := by
    rw [show (3 : ℚ) - (21/50) / (1/10) = -(6/5) by norm_num, abs_neg,
      abs_of_nonneg (by norm_num : (0:ℚ) ≤ 6/5)]
  rw [habs]
  norm_num

/-- Claim C4: the gas-resistance baseline is 150.0 for a healthy node
and 50.0 for an infected one, fixed at construction and preserved by
register and send_reading; each Reading's gasResistance equals the
baseline plus a Gaussian draw of standard deviation one tenth of the
baseline, rounded to 2 decimals. -/
theorem C4_gas_resistance_baseline (msin : ℚ → ℚ) (nm loc pid : String)
    (off : ℚ) (s : SensorSimulator) (w : World) :
    (SensorSimulator.init nm loc pid "healthy" off).gas_resistance_base = 150 ∧
    (SensorSimulator.init nm loc pid "infected" off).gas_resistance_base = 50 ∧
    (runRegister s w).1.gas_resistance_base = s.gas_resistance_base ∧
    (runSend msin s w).1.gas_resistance_base = s.gas_resistance_base ∧
    (SensorSimulator.generate_reading msin s w).1.gasResistance =
      pyRound 2 (s.gas_resistance_base +
        s.gas_resistance_base * (1/10) * w.z (w.zIdx + 3)) := by
  refine ⟨by simp [SensorSimulator.init], by simp [SensorSimulator.init],
    (runRegister_core s w).2.2.2.2.2, (runSend_core msin s w).2.2.2.2.2, ?_⟩
  simp [SensorSimulator.generate_reading, gauss, pyTimeTime]

/-- Claim C7: register sets the registered flag exactly when the server
answers HTTP 200; on a connection failure or any non-200 status the node
comes back unchanged (an unregistered node stays unregistered); the call
posts exactly once — no retry inside register. -/
theorem C7_register_flag_iff_200 (s : SensorSimulator) (w : World) :
    (runRegister s w).1 =
      (if w.net w.netIdx = .status 200 then { s with registered := true }
       else s) ∧
    (runRegister s w).2.trace =
      w.trace ++ [Call.register s.name s.location] :=
  ⟨by rw [runRegister_eq], (runRegister_world s w).2.2.2.2.2.2⟩

/-- Claim C8: across every sequence of register, send_reading and
generate_reading calls after construction, the only node field ever
mutated is the registered flag; name, location, plantId, diseaseStatus,
phase offset and the gas-resistance baseline never change. -/
theorem C8_only_registered_flag_mutated (msin : ℚ → ℚ) (ops : List Op)
    (s : SensorSimulator) (w : World) :
    (runOps msin ops s w).1.name = s.name ∧
    (runOps msin ops s w).1.location = s.location ∧
    (runOps msin ops s w).1.plant_id = s.plant_id ∧
    (runOps msin ops s w).1.disease_status = s.disease_status ∧
    (runOps msin ops s w).1.time_offset = s.time_offset ∧
    (runOps msin ops s w).1.gas_resistance_base = s.gas_resistance_base :=
  runOps_core msin ops s w

/-- Claim C10: a send_reading call invokes generate_reading exactly once
— nine Gaussian draws and two clock reads in total, none of them spent
by the transport — before the first submission, and when the update is
retried the identical Reading value is posted again. -/
theorem C10_single_reading_resubmitted (msin : ℚ → ℚ)
    (s : SensorSimulator) (w : World) :
    (runSend msin s w).2.trace =
      (afterInitialRegister s w).2.trace ++
        (if isReject ((afterInitialRegister s w).2.net
            ((afterInitialRegister s w).2.netIdx)) then
          [Call.update (SensorSimulator.generate_reading msin
              (afterInitialRegister s w).1 (afterInitialRegister s w).2).1,
           Call.register (afterInitialRegister s w).1.name
             (afterInitialRegister s w).1.location,
           Call.update (SensorSimulator.generate_reading msin
              (afterInitialRegister s w).1 (afterInitialRegister s w).2).1]
        else
          [Call.update (SensorSimulator.generate_reading msin
              (afterInitialRegister s w).1 (afterInitialRegister s w).2).1]) ∧
    (runSend msin s w).2.zIdx = w.zIdx + 9 ∧
    (runSend msin s w).2.clockIdx = w.clockIdx + 2 := by
  obtain ⟨ht, hz, hc, _⟩ := runSend_spec msin s w
  obtain ⟨_, hz0, _, hc0⟩ := afterInitialRegister_world s w
  exact ⟨ht, by rw [hz, hz0], by rw [hc, hc0]⟩

/-- Claim C1 (amended): in every send_reading call, when the first
submission of the reading (the update posted right after the optional
initial registration) is rejected with a non-200 status, the driver
drops the registered flag, calls register again and retries the
submission exactly once — never a third attempt — and the final flag
mirrors the re-registration's outcome; when the first submission
instead fails with a connection error, the except clause only logs it:
the node is returned exactly as it entered the submission phase, with
no re-registration and no retry in that call. -/
theorem C1_reject_reregisters_conn_does_not (msin : ℚ → ℚ)
    (s : SensorSimulator) (w : World) :
    (runSend msin s w).2.trace =
      (afterInitialRegister s w).2.trace ++
        (if isReject ((afterInitialRegister s w).2.net
            ((afterInitialRegister s w).2.netIdx)) then
          [Call.update (SensorSimulator.generate_reading msin
              (afterInitialRegister s w).1 (afterInitialRegister s w).2).1,
           Call.register (afterInitialRegister s w).1.name
             (afterInitialRegister s w).1.location,
           Call.update (SensorSimulator.generate_reading msin
              (afterInitialRegister s w).1 (afterInitialRegister s w).2).1]
        else
          [Call.update (SensorSimulator.generate_reading msin
              (afterInitialRegister s w).1 (afterInitialRegister s w).2).1]) ∧
    (isReject ((afterInitialRegister s w).2.net
        ((afterInitialRegister s w).2.netIdx)) = true →
      ((runSend msin s w).1.registered = true ↔
        (afterInitialRegister s w).2.net
          ((afterInitialRegister s w).2.netIdx + 1) = .status 200)) ∧
    ((afterInitialRegister s w).2.net ((afterInitialRegister s w).2.netIdx) =
        .connError →
      (runSend msin s w).1 = (afterInitialRegister s w).1) := by
  obtain ⟨ht, _, _, hf⟩ := runSend_spec msin s w
  refine ⟨ht, ?_, ?_⟩
  · intro hrej
    rw [hf, if_pos hrej]
    split_ifs with hc <;> simp [hc]
  · intro hconn
    rw [hf]
    have hiR : isReject ((afterInitialRegister s w).2.net
        ((afterInitialRegister s w).2.netIdx)) = false := by
      rw [hconn]; rfl
    simp [hiR]

/-- Claim C1 witness: a registered node in an environment rejecting
every post with status 500 posts update, register, update — exactly one
retry — and ends unregistered because the re-registration also failed. -/
theorem C1_reject_reregisters_witness :
    (runSend msinZero sReg wReject).2.trace =
      [Call.update (SensorSimulator.generate_reading msinZero sReg wReject).1,
       Call.register "sensor_01" "greenhouse_zone_1",
       Call.update (SensorSimulator.generate_reading msinZero sReg wReject).1] ∧
    (runSend msinZero sReg wReject).1.registered = false := by
  obtain ⟨ht, hflag, _⟩ :=
    C1_reject_reregisters_conn_does_not msinZero sReg wReject
  have hAfter : afterInitialRegister sReg wReject = (sReg, wReject) := rfl
  rw [hAfter] at ht hflag
  dsimp only at ht hflag
  constructor
  · rw [ht]
    have hiR : isReject (wReject.net wReject.netIdx) = true := rfl
    rw [hiR]
    simp [wReject, zeroWorld, sReg, sHealthy, SensorSimulator.init]
  · have h2 := hflag rfl
    have hne : ¬ wReject.net (wReject.netIdx + 1) = .status 200 := by
      simp [wReject, zeroWorld]
    by_cases hb : (runSend msinZero sReg wReject).1.registered = true
    · exact absurd (h2.mp hb) hne
    · simpa using hb

/-- Claim C1 counterexample: when the first submission fails with a
connection error, the driver does NOT drop the flag, does NOT
re-register and does NOT retry — the trace holds a single update and no
registration, and the node stays registered — contradicting the claim
that a connection failure triggers the re-register-and-retry path. -/
theorem C1_conn_failure_counterexample :
    wConn.net wConn.netIdx = .connError ∧
    (runSend msinZero sReg wConn).1.registered = true ∧
    updateCount (runSend msinZero sReg wConn).2.trace = 1 ∧
    registerCount (runSend msinZero sReg wConn).2.trace = 0 := by
  obtain ⟨ht, _, hcf⟩ := send_registered_spec msinZero sReg wConn rfl
  have hconn : wConn.net wConn.netIdx = .connError := rfl
  have hiR : isReject (wConn.net wConn.netIdx) = false := rfl
  refine ⟨hconn, ?_, ?_, ?_⟩
  · rw [hcf hconn]; rfl
  · rw [ht, hiR]
    simp [updateCount, wConn, zeroWorld]
  · rw [ht, hiR]
    simp [registerCount, wConn, zeroWorld]

/-- Claim C2: in the modelled error space (connection errors and
arbitrary status codes), no error escapes register or send_reading —
both always return normally, every failure having been turned into a
console message — and a loop pass over any node list with no scheduled
interrupt sends for every node and completes, so the control loop
always proceeds to the next node and the next tick. -/
theorem C2_no_network_error_escapes (msin : ℚ → ℚ) (s : SensorSimulator)
    (w : World) (sensors : List SensorSimulator) (k step : ℕ)
    (h : ∀ j, j < sensors.length → step + j ≠ k) :
    s.register w = .ok (runRegister s w) ∧
    s.send_reading msin w = .ok (runSend msin s w) ∧
    ∃ ss w', loopSensors msin sensors w k step =
        .ok (ss, w', step + sensors.length) ∧
      ss.length = sensors.length :=
  ⟨register_runRegister s w, send_runSend msin s w,
    loopSensors_no_interrupt msin sensors w k step h⟩

/-- Claim C2 witness: on a concrete node and environment both calls
return normally. -/
theorem C2_no_network_error_escapes_witness :
    sHealthy.register zeroWorld = .ok (runRegister sHealthy zeroWorld) ∧
    sHealthy.send_reading msinZero zeroWorld =
      .ok (runSend msinZero sHealthy zeroWorld) := by
  have h := C2_no_network_error_escapes msinZero sHealthy zeroWorld
    [sHealthy] 5 0 (fun j hj => by simp at hj; omega)
  exact ⟨h.1, h.2.1⟩

/-- Claim C9 (amended): the process runs until interrupted, and an
interrupt arriving during the main send loop — that is, at or after the
2·n interruptible steps of the startup registration pass — is caught by
the except clause, prints the final status message last, and the
process exits with code 0.  (An interrupt during the startup
registration pass itself is NOT caught: see the counterexample.) -/
theorem C9_loop_interrupt_clean_exit (msin : ℚ → ℚ) (numSensors : ℕ)
    (offs : ℕ → ℚ) (k : ℕ) (w : World) (h : 2 * numSensors ≤ k) :
    pyExit (pyMain msin numSensors offs k w) = some 0 ∧
    ∃ w', pyMain msin numSensors offs k w = some (.ok w') ∧
      w'.out.getLast? = some Msg.simulationStopped := by
  unfold pyMain
  obtain ⟨ss, w1, hreg, hlen⟩ :=
    regPass_no_interrupt (mkSensors numSensors offs)
      (pyPrint .dashes (pyPrint .intervalBanner (pyPrint .serverBanner
        (pyPrint (.startBanner (mkSensors numSensors offs).length) w)))) k 0
      (fun j hj => by
        rw [mkSensors_length] at hj
        omega)
  obtain ⟨w3, hloop⟩ := mainLoop_interrupt msin (k + 2) ss
    (pyPrint .dashes (pyPrint .sendingReadings (pyPrint .dashes w1))) k
    (0 + 2 * (mkSensors numSensors offs).length)
    (by rw [mkSensors_length]; omega) (by omega)
  simp only [hreg, hloop]
  refine ⟨by simp [pyExit], pyPrint .simulationStopped w3, by simp, ?_⟩
  simp [pyPrint, List.getLast?_concat]

/-- Claim C9 witness: with one sensor and the interrupt scheduled right
after the registration pass, the run exits with code 0. -/
theorem C9_loop_interrupt_clean_exit_witness :
    2 * 1 ≤ 2 ∧
    pyExit (pyMain msinZero 1 (fun _ => 0) 2 zeroWorld) = some 0 := by
  refine ⟨by norm_num, ?_⟩
  exact (C9_loop_interrupt_clean_exit msinZero 1 (fun _ => 0) 2 zeroWorld
    (by norm_num)).1

/-- Claim C9 counterexample: an interrupt during the first register call
of the startup pass — which lies outside the try/except — propagates
uncaught: the process dies with the SIGINT exit status 130 and the
clean final message is never printed, contradicting the claim that an
interrupt at any point, including the initial registration pass, yields
a clean message and exit code 0. -/
theorem C9_registration_interrupt_counterexample :
    pyExit (pyMain msinZero 1 (fun _ => 0) 0 zeroWorld) = some 130 ∧
    pyMainMsgs (pyMain msinZero 1 (fun _ => 0) 0 zeroWorld) =
      some [Msg.startBanner 1, Msg.serverBanner, Msg.intervalBanner,
        Msg.dashes] := by
  constructor <;> rfl

end CropSense
